import Mathlib

/-
Verification of the pop-up buoy release server (app.py).

The development shallowly embeds the release orchestration and scheduling
logic of app.py: the presence prober (ping_host), the release task
(release_thread), the synchronous request validation (release_popup and the
release route), the startup release-flag computation and reconciliation pass
(process_release), and the permission query (get_permission_status).

Conventions of the embedding:
- Timestamps and durations are natural numbers of seconds; each iteration of
  the monitoring loop advances logical time by release_time (the sleep), and
  probe calls are instantaneous.
- The k-th evaluation of the loop condition ping_host(client_ip) is driven
  by a function giving the k-th probe outcome (subprocess completed with a
  return code, timed out, or raised); ping_host itself may therefore raise,
  and an uncaught raise kills the thread mid-loop.
- Python exceptions are modelled with Except / an exc field: an uncaught
  exception terminates the thread.
- The status JSON file is a record with the releasedBuoys table and the
  permission table; dictionary lookups that can raise KeyError return Option.
- GPIO writes and log lines are recorded as an event trace.
-/

namespace PopupServer

/-- Python exception kinds that the embedded fragments of app.py can raise. -/
inductive PyErr where
  | keyError
  | nameError
  | valueError
  | osError
deriving DecidableEq, Repr

/-- Outcome of the single subprocess.run invocation inside ping_host: either
the ping child completed with a return code, or the 5-second timeout fired
(subprocess.TimeoutExpired), or the invocation itself raised some other
exception (for example ValueError for a host string containing a NUL byte, or
an OSError when the ping binary cannot be spawned). -/
inductive ProbeOutcome where
  | completed (returncode : Int)
  | timedOut
  | raised (e : PyErr)
deriving DecidableEq, Repr

/-- Embedding of ping_host (app.py lines 95-106). It returns True iff the
ping subprocess exits with return code 0, False on a nonzero return code, and
False when subprocess.TimeoutExpired is caught. The only except clause is for
subprocess.TimeoutExpired, so any other exception raised by the invocation
propagates to the caller. -/
def ping_host (r : ProbeOutcome) : Except PyErr Bool :=
  match r with
  | .completed rc => if rc = 0 then .ok true else .ok false
  | .timedOut => .ok false
  | .raised e => .error e

/-- One entry of the permission section of the status JSON file
(fields read and written by process_release, app.py lines 341-356). -/
structure PermEntry where
  releaseFlag : Nat
  releaseMode : String
  sleeptime_h : String
deriving DecidableEq, Repr

/-- The parsed status JSON file: the releasedBuoys table (device id to
released flag, app.py lines 139-140 and 408-412) and the permission table
(device id to its permission entry; a missing key is None and a Python access
would raise KeyError). -/
structure Status where
  releasedBuoys : String → Bool
  permission : String → Option PermEntry

/-- Externally visible actions of a release task, in order of occurrence:
GPIO line writes (level true is HIGH), the log lines of release_thread, and
the rewrite of the status file (app.py lines 142-143). -/
inductive Ev where
  | gpio (pin : Nat) (level : Bool)
  | logActivating (id : String)
  | logStillConnected (id : String)
  | logTimeout (id : String)
  | logReleased (id : String)
  | writeStatus
deriving DecidableEq, Repr

/-- Terminal outcome of the monitoring loop of release_thread: the buoy
stopped answering pings (Released) or the max_release_time deadline passed
(TimedOut). -/
inductive Outcome where
  | Released
  | TimedOut
deriving DecidableEq, Repr

/-- The process-wide configuration loaded in __main__ that release_thread
uses: the pin table popups_pins (device id to GPIO pin), release_time and
max_release_time (app.py lines 372-394). -/
structure Ctx where
  pins : String → Option Nat
  release_time : Nat
  max_release_time : Nat

/-- One exit of the monitoring loop: either the while loop finished with a
terminal outcome and the elapsed time since init, or the ping_host call at
the loop condition raised an uncaught exception and the thread is about to
die with it. -/
inductive LoopResult where
  | done (o : Outcome) (elapsed : Nat)
  | raised (e : PyErr)
deriving DecidableEq, Repr

/-- The monitoring loop of release_thread (app.py lines 120-127):
while ping_host(client_ip) holds, log a still-connected warning, sleep
release_time, and break with timeout once the elapsed time since init exceeds
max_release_time (strict comparison). The k-th loop condition evaluates
ping_host on the k-th probe outcome: a False return exits the loop with
Released, a True return runs one more iteration, and an exception that
ping_host does not catch aborts the loop — and the thread — on the spot.
Arguments after maxrt: remaining fuel, the probe index k, and the elapsed
seconds since init. Returns the loop exit and the log events of the loop;
none when the fuel runs out first. -/
def monitor (uid : String) (ping : Nat → ProbeOutcome) (rt maxrt : Nat) :
    Nat → Nat → Nat → Option (LoopResult × List Ev)
  | 0, _, _ => none
  | fuel + 1, k, elapsed =>
    match ping_host (ping k) with
    | .error e => some (.raised e, [])
    | .ok true =>
      if maxrt < elapsed + rt then
        some (.done .TimedOut (elapsed + rt), [Ev.logStillConnected uid])
      else
        match monitor uid ping rt maxrt fuel (k + 1) (elapsed + rt) with
        | none => none
        | some (res, evs) => some (res, Ev.logStillConnected uid :: evs)
    | .ok false => some (.done .Released elapsed, [])

/-- Result of one run of release_thread: the event trace, the terminal
outcome of the monitoring loop (none when the thread died before reaching
it), the elapsed monitoring time, the status file content after the run, and
the uncaught exception that killed the thread, if any. -/
structure RunResult where
  events : List Ev
  outcome : Option Outcome
  elapsed : Nat
  finalFile : Status
  exc : Option PyErr

/-- Embedding of release_thread (app.py lines 108-143). It looks up the pin
in popups_pins (KeyError kills the thread with no event if the id is absent),
sets the pin HIGH, sleeps release_time, and runs the monitoring loop. When a
ping_host call raises an exception it does not catch, the thread dies right
there: the LOW write of line 128 is never reached and the line stays
energized. Otherwise the pin is set LOW and then: on timeout only the failure
is logged; on success the thread logs, reads the status file, assigns into
the global popup_status — which raises NameError when that global was never
bound, i.e. when the status file did not exist at startup (globalBound is
false) — sets releasedBuoys[popup_id] to True and rewrites the file. -/
def release_thread (ctx : Ctx) (ping : Nat → ProbeOutcome) (globalBound : Bool)
    (file : Status) (popup_id : String) (fuel : Nat) : Option RunResult :=
  match ctx.pins popup_id with
  | none =>
    some { events := [], outcome := none, elapsed := 0, finalFile := file,
           exc := some .keyError }
  | some pin =>
    match monitor popup_id ping ctx.release_time ctx.max_release_time fuel 0 0 with
    | none => none
    | some (.raised err, loopEvs) =>
      some { events := [Ev.logActivating popup_id, Ev.gpio pin true] ++ loopEvs,
             outcome := none, elapsed := 0, finalFile := file,
             exc := some err }
    | some (.done o e, loopEvs) =>
      match o with
      | .TimedOut =>
        some { events := [Ev.logActivating popup_id, Ev.gpio pin true] ++ loopEvs
                           ++ [Ev.gpio pin false, Ev.logTimeout popup_id],
               outcome := some .TimedOut, elapsed := e, finalFile := file,
               exc := none }
      | .Released =>
        match globalBound with
        | true =>
          some { events := [Ev.logActivating popup_id, Ev.gpio pin true] ++ loopEvs
                             ++ [Ev.gpio pin false, Ev.logReleased popup_id, Ev.writeStatus],
                 outcome := some .Released, elapsed := e,
                 finalFile := { file with
                   releasedBuoys := fun k => if k = popup_id then true else file.releasedBuoys k },
                 exc := none }
        | false =>
          some { events := [Ev.logActivating popup_id, Ev.gpio pin true] ++ loopEvs
                             ++ [Ev.gpio pin false, Ev.logReleased popup_id],
                 outcome := some .Released, elapsed := e, finalFile := file,
                 exc := some .nameError }

/-- The in-memory record of a spawned release task: the Thread target
arguments of app.py line 154 that are not already part of Ctx. -/
structure ReleaseTask where
  popup_id : String
  client_ip : String
deriving DecidableEq, Repr

/-- Embedding of release_popup (app.py lines 148-157): if the id is not a key
of popups_pins, log an error and return False with no task; otherwise spawn
the release thread and return True. -/
def release_popup (ctx : Ctx) (popup_id client_ip : String) :
    Bool × Option ReleaseTask :=
  if (ctx.pins popup_id).isNone then
    (false, none)
  else
    (true, some { popup_id := popup_id, client_ip := client_ip })

/-- Embedding of the release route (app.py lines 160-170) together with the
run of the spawned task: the boolean success field of the HTTP response, the
spawned task if any, and the events the spawned task produces (empty when no
task was spawned or the fuel ran out). -/
def release_callback (ctx : Ctx) (ping : Nat → ProbeOutcome) (globalBound : Bool)
    (file : Status) (popup_id client_ip : String) (fuel : Nat) :
    Bool × Option ReleaseTask × List Ev :=
  match release_popup ctx popup_id client_ip with
  | (accepted, none) => (accepted, none, [])
  | (accepted, some t) =>
    match release_thread ctx ping globalBound file t.popup_id fuel with
    | none => (accepted, some t, [])
    | some r => (accepted, some t, r.events)

/-- The release-flag computation of __main__ (app.py lines 398-402): the
popup is marked due (1) iff its scheduled timestamp is strictly earlier than
the current time plus offset_seconds (which defaults to 60). -/
def startup_release_flag (scheduled now offset : Nat) : Nat :=
  if scheduled < now + offset then 1 else 0

/-- Modelled from the spec wording for comparison: release_flag = 1 iff
now is at or after scheduled_time, else 0. -/
def release_flag_spec (scheduled now : Nat) : Nat :=
  if scheduled ≤ now then 1 else 0

/-- Result of the permission route: the status file failed to load, the
popup id is not in the permission section (HTTP 404), or the stored
permission entry returned verbatim (HTTP 200). -/
inductive PermResult where
  | loadError
  | notFound
  | ok (e : PermEntry)
deriving DecidableEq, Repr

/-- Embedding of get_permission_status (app.py lines 241-264): load the
status file (error response when load_status returns None), look the popup id
up in the permission section, and return the stored entry unchanged. No
recomputation from timestamps happens on this path. -/
def get_permission_status (st : Option Status) (popup_id : String) : PermResult :=
  match st with
  | none => .loadError
  | some s =>
    match s.permission popup_id with
    | none => .notFound
    | some e => .ok e

/-- Functional update of one permission entry of the status file. -/
def updatePerm (s : Status) (id : String) (e : PermEntry) : Status :=
  { s with permission := fun k => if k = id then some e else s.permission k }

/-- One iteration of the loop of process_release (app.py lines 340-357) for
the pair (popup_id, release_value): read releaseFlag (KeyError when the id is
missing from the permission section), overwrite releaseMode and sleeptime_h
unconditionally, then: when the stored flag is 0 and the computed value is 1,
copy the files and set releaseFlag to 1; in every other case leave the flag
as it is. -/
def process_release_step (mode : String → Option String) (sampling : Nat)
    (s : Status) (p : String × Nat) : Except PyErr Status :=
  match s.permission p.1 with
  | none => .error .keyError
  | some entry =>
    match mode p.1 with
    | none => .error .keyError
    | some m =>
      if entry.releaseFlag = 1 ∧ p.2 = 1 then
        .ok (updatePerm s p.1
          { entry with releaseMode := m, sleeptime_h := toString sampling })
      else if entry.releaseFlag = 0 ∧ p.2 = 1 then
        .ok (updatePerm
          (updatePerm s p.1
            { entry with releaseMode := m, sleeptime_h := toString sampling })
          p.1
          { releaseFlag := 1, releaseMode := m, sleeptime_h := toString sampling })
      else
        .ok (updatePerm s p.1
          { entry with releaseMode := m, sleeptime_h := toString sampling })

/-- Embedding of process_release (app.py lines 333-362): fold the step over
the popups_release pairs computed at startup and write the result back. -/
def process_release (mode : String → Option String) (sampling : Nat)
    (s : Status) (popups_release : List (String × Nat)) : Except PyErr Status :=
  match popups_release with
  | [] => .ok s
  | p :: rest =>
    match process_release_step mode sampling s p with
    | .error e => .error e
    | .ok s1 => process_release mode sampling s1 rest

/-- The status file written by __main__ when none exists yet (app.py lines
406-412): every known buoy is recorded as not released and there is no
permission section. -/
def freshStatus : Status :=
  { releasedBuoys := fun _ => false, permission := fun _ => none }

/-- The startup handling of the status file (app.py lines 406-419): when the
file does not exist, generate the fresh one — and leave the global
popup_status unbound (second component false); when it exists, bind the
global popup_status and run the process_release reconciliation pass over the
file. Returns the file content after startup, paired with whether the global
popup_status got bound. -/
def startup_status (fileExists : Bool) (existing : Status)
    (mode : String → Option String) (sampling : Nat)
    (popups_release : List (String × Nat)) : Except PyErr (Status × Bool) :=
  if fileExists then
    match process_release mode sampling existing popups_release with
    | .error e => .error e
    | .ok s => .ok (s, true)
  else
    .ok (freshStatus, false)

/-- The level of a GPIO pin after a list of events has been replayed on top
of an initial level (startup drives every pin LOW, app.py lines 421-426, so
the initial level of interest is false). -/
def lineAfter (pin : Nat) (evs : List Ev) (init : Bool) : Bool :=
  evs.foldl
    (fun acc e =>
      match e with
      | .gpio p l => if p = pin then l else acc
      | _ => acc)
    init

/-- The releaseFlag that the permission section of the status file stores for
a device, if any. -/
def flagOf (s : Status) (id : String) : Option Nat :=
  (s.permission id).map PermEntry.releaseFlag

/-- A concrete configuration used to instantiate the theorems: buoy "1" on
pin 7 and buoy "2" on pin 5, release_time of 2 seconds and max_release_time
of 3 seconds. -/
def ctx0 : Ctx :=
  { pins := fun k => if k = "1" then some 7 else if k = "2" then some 5 else none,
    release_time := 2,
    max_release_time := 3 }

/-- A concrete status file in which buoy "2" is already recorded as
released. -/
def fileRel : Status :=
  { releasedBuoys := fun k => decide (k = "2"), permission := fun _ => none }

/-- The run of release_thread for buoy "1" when the buoy disconnects at the
first probe and the popup_status global is bound. -/
def rRel : RunResult :=
  { events := [Ev.logActivating "1", Ev.gpio 7 true, Ev.gpio 7 false,
               Ev.logReleased "1", Ev.writeStatus],
    outcome := some .Released, elapsed := 0,
    finalFile := { releasedBuoys := fun k => if k = "1" then true else freshStatus.releasedBuoys k,
                   permission := freshStatus.permission },
    exc := none }

/-- The run of release_thread for buoy "2" on top of fileRel when the buoy
disconnects at the first probe and the popup_status global is bound. -/
def rRel2 : RunResult :=
  { events := [Ev.logActivating "2", Ev.gpio 5 true, Ev.gpio 5 false,
               Ev.logReleased "2", Ev.writeStatus],
    outcome := some .Released, elapsed := 0,
    finalFile := { releasedBuoys := fun k => if k = "2" then true else fileRel.releasedBuoys k,
                   permission := fileRel.permission },
    exc := none }

/-- The run of release_thread for buoy "1" when the buoy disconnects at the
first probe but the popup_status global is unbound (fresh status file). -/
def rNE : RunResult :=
  { events := [Ev.logActivating "1", Ev.gpio 7 true, Ev.gpio 7 false,
               Ev.logReleased "1"],
    outcome := some .Released, elapsed := 0,
    finalFile := freshStatus,
    exc := some .nameError }

/-- The run of release_thread for buoy "1" when the buoy stays reachable on
every probe: two polls of 2 seconds each push the elapsed time to 4, past the
3-second deadline. -/
def rTO : RunResult :=
  { events := [Ev.logActivating "1", Ev.gpio 7 true, Ev.logStillConnected "1",
               Ev.logStillConnected "1", Ev.gpio 7 false, Ev.logTimeout "1"],
    outcome := some .TimedOut, elapsed := 4,
    finalFile := freshStatus,
    exc := none }

/-- A concrete permission entry with releaseFlag 0, as stored before a
reconciliation pass. -/
def e0W : PermEntry :=
  { releaseFlag := 0, releaseMode := "m", sleeptime_h := "x" }

/-- A concrete status file whose permission section holds e0W for buoy
"1". -/
def sW : Status :=
  { releasedBuoys := fun _ => false,
    permission := fun k => if k = "1" then some e0W else none }

/-- The release-mode table used with sW. -/
def modeW : String → Option String :=
  fun k => if k = "1" then some "surface" else none

/-- The status file produced by the reconciliation pass over sW with the
pair ("1", 1): releaseMode and sleeptime_h rewritten, releaseFlag promoted
to 1. -/
def s1W : Status :=
  updatePerm (updatePerm sW "1" { e0W with releaseMode := "surface", sleeptime_h := toString 24 })
    "1" { releaseFlag := 1, releaseMode := "surface", sleeptime_h := toString 24 }

/-- Every event that the monitoring loop itself produces is a still-connected
warning line: the loop writes neither GPIO events nor the status file. -/
lemma monitor_events (uid : String) (ping : Nat → ProbeOutcome) (rt maxrt : Nat) :
    ∀ fuel k elapsed res evs,
      monitor uid ping rt maxrt fuel k elapsed = some (res, evs) →
      ∀ ev ∈ evs, ev = Ev.logStillConnected uid := by
  intro fuel
  induction fuel with
  | zero =>
    intro k elapsed res evs h
    simp [monitor] at h
  | succ n ih =>
    intro k elapsed res evs h
    simp only [monitor] at h
    split at h
    · simp only [Option.some.injEq, Prod.mk.injEq] at h
      obtain ⟨rfl, rfl⟩ := h
      simp
    · split at h
      · simp only [Option.some.injEq, Prod.mk.injEq] at h
        obtain ⟨rfl, rfl⟩ := h
        simp
      · split at h
        · exact absurd h (by simp)
        · rename_i res2 evs2 hrec
          simp only [Option.some.injEq, Prod.mk.injEq] at h
          obtain ⟨rfl, rfl⟩ := h
          intro ev hev
          rcases List.mem_cons.mp hev with h1 | h1
          · exact h1
          · exact ih (k + 1) (elapsed + rt) _ _ hrec ev h1
    · simp only [Option.some.injEq, Prod.mk.injEq] at h
      obtain ⟨rfl, rfl⟩ := h
      simp

/-- Whenever the monitoring loop exits with TimedOut, the elapsed time it
reports is strictly greater than max_release_time: the deadline check of
app.py line 125 is a strict comparison against the time since init. -/
lemma monitor_timedOut_deadline (uid : String) (ping : Nat → ProbeOutcome) (rt maxrt : Nat) :
    ∀ fuel k elapsed e evs,
      monitor uid ping rt maxrt fuel k elapsed = some (.done .TimedOut e, evs) →
      maxrt < e := by
  intro fuel
  induction fuel with
  | zero =>
    intro k elapsed e evs h
    simp [monitor] at h
  | succ n ih =>
    intro k elapsed e evs h
    simp only [monitor] at h
    split at h
    · simp at h
    · split at h
      · rename_i hd
        simp at h
        obtain ⟨rfl, rfl⟩ := h
        exact hd
      · split at h
        · exact absurd h (by simp)
        · rename_i res2 evs2 hrec
          simp only [Option.some.injEq, Prod.mk.injEq] at h
          obtain ⟨rfl, rfl⟩ := h
          exact ih (k + 1) (elapsed + rt) _ _ hrec
    · simp at h

/-- When every probe reports the buoy reachable and the poll interval is
positive, the monitoring loop with enough fuel exits with TimedOut at an
elapsed time strictly past the deadline but at most one poll interval past
it. -/
lemma monitor_reachable_forever (uid : String) (ping : Nat → ProbeOutcome) (rt maxrt : Nat)
    (hping : ∀ j, ping_host (ping j) = Except.ok true) :
    ∀ fuel k elapsed, elapsed ≤ maxrt → maxrt < elapsed + fuel * rt →
      ∃ e evs, monitor uid ping rt maxrt fuel k elapsed = some (.done .TimedOut e, evs) ∧
        maxrt < e ∧ e ≤ maxrt + rt := by
  intro fuel
  induction fuel with
  | zero =>
    intro k elapsed h1 h2
    rw [Nat.zero_mul] at h2
    omega
  | succ n ih =>
    intro k elapsed h1 h2
    by_cases hd : maxrt < elapsed + rt
    · refine ⟨elapsed + rt, [Ev.logStillConnected uid], ?_, hd, by omega⟩
      simp [monitor, hping k, hd]
    · rw [Nat.succ_mul] at h2
      obtain ⟨e, evs, hm, hb1, hb2⟩ := ih (k + 1) (elapsed + rt) (by omega) (by omega)
      refine ⟨e, Ev.logStillConnected uid :: evs, ?_, hb1, hb2⟩
      simp only [monitor, hping k]
      rw [if_neg hd, hm]

/-- Whenever a run of release_thread terminates with the TimedOut outcome,
the monitoring step has run strictly past max_release_time. -/
lemma release_thread_timedOut_deadline (ctx : Ctx) (ping : Nat → ProbeOutcome) (g : Bool)
    (file : Status) (id : String) (fuel : Nat) (r : RunResult)
    (hrun : release_thread ctx ping g file id fuel = some r)
    (hout : r.outcome = some .TimedOut) :
    ctx.max_release_time < r.elapsed := by
  unfold release_thread at hrun
  cases hpin : ctx.pins id with
  | none =>
    rw [hpin] at hrun
    simp only [Option.some.injEq] at hrun
    subst hrun
    simp at hout
  | some pin =>
    rw [hpin] at hrun
    cases hm : monitor id ping ctx.release_time ctx.max_release_time fuel 0 0 with
    | none => rw [hm] at hrun; simp at hrun
    | some t =>
      obtain ⟨res, evs⟩ := t
      rw [hm] at hrun
      cases res with
      | raised err =>
        simp only [Option.some.injEq] at hrun
        subst hrun
        simp at hout
      | done o e =>
        cases o with
        | TimedOut =>
          simp only [Option.some.injEq] at hrun
          subst hrun
          exact monitor_timedOut_deadline id ping ctx.release_time ctx.max_release_time
            fuel 0 0 e evs hm
        | Released =>
          cases g with
          | true =>
            simp only [Option.some.injEq] at hrun
            subst hrun
            simp at hout
          | false =>
            simp only [Option.some.injEq] at hrun
            subst hrun
            simp at hout

/-- The run of release_thread for buoy "1" when ping_host raises OSError at
the first monitoring probe: the thread dies after the HIGH write, with no LOW
write in its trace. -/
def rEx : RunResult :=
  { events := [Ev.logActivating "1", Ev.gpio 7 true],
    outcome := none, elapsed := 0, finalFile := freshStatus,
    exc := some .osError }

/-- C2 counterexample: when the probe invocation raises an exception that
ping_host does not catch — here an OSError spawning the ping binary — the
release task for the registered buoy "1" terminates after the HIGH write and
before the LOW write of app.py line 128: its trace contains no LOW event and
replaying it leaves pin 7 energized after the task has terminated. -/
theorem line_left_high_on_probe_exception :
    release_thread ctx0 (fun _ => ProbeOutcome.raised PyErr.osError) true freshStatus
      "1" 2 = some rEx ∧
    lineAfter 7 rEx.events false = true ∧
    Ev.gpio 7 false ∉ rEx.events ∧
    rEx.exc = some PyErr.osError :=
  ⟨rfl, by decide, by decide, rfl⟩

/-- C2 amended: a release task that reaches a terminal outcome — Released or
TimedOut — always ends with the output line LOW and its trace contains the
LOW write, because GPIO.output(pin, LOW) at app.py line 128 precedes both
terminal branches; only a run aborted by an uncaught probe exception, which
reaches no terminal outcome, terminates with the line still energized. -/
theorem release_line_ends_low (ctx : Ctx) (ping : Nat → ProbeOutcome) (g : Bool)
    (file : Status) (id : String) (pin : Nat) (fuel : Nat) (r : RunResult)
    (hpin : ctx.pins id = some pin)
    (hrun : release_thread ctx ping g file id fuel = some r)
    (hout : r.outcome.isSome) :
    lineAfter pin r.events false = false ∧ Ev.gpio pin false ∈ r.events := by
  unfold release_thread at hrun
  rw [hpin] at hrun
  cases hm : monitor id ping ctx.release_time ctx.max_release_time fuel 0 0 with
  | none => rw [hm] at hrun; simp at hrun
  | some t =>
    obtain ⟨res, evs⟩ := t
    rw [hm] at hrun
    cases res with
    | raised err =>
      simp only [Option.some.injEq] at hrun
      subst hrun
      simp at hout
    | done o e =>
      cases o with
      | TimedOut =>
        simp only [Option.some.injEq] at hrun
        subst hrun
        constructor
        · simp [lineAfter, List.foldl_append]
        · simp
      | Released =>
        cases g with
        | true =>
          simp only [Option.some.injEq] at hrun
          subst hrun
          constructor
          · simp [lineAfter, List.foldl_append]
          · simp
        | false =>
          simp only [Option.some.injEq] at hrun
          subst hrun
          constructor
          · simp [lineAfter, List.foldl_append]
          · simp

/-- Witness for release_line_ends_low: buoy "1" on pin 7, buoy gone at the
first probe, reaching the Released terminal outcome. -/
theorem release_line_ends_low_witness :
    rRel.outcome.isSome = true ∧
    (lineAfter 7 rRel.events false = false ∧ Ev.gpio 7 false ∈ rRel.events) :=
  ⟨rfl, release_line_ends_low ctx0 (fun _ => ProbeOutcome.completed 1) true freshStatus
    "1" 7 1 rRel rfl rfl rfl⟩

/-- C5: when the presence prober reports the buoy reachable on every poll,
the release task reaches TimedOut, at an elapsed monitoring time strictly
past max_release_time but at most one poll interval past it; and no run of
the task ever declares TimedOut at or before max_release_time of elapsed
monitoring time. -/
theorem monitoring_times_out_after_deadline (ctx : Ctx) (ping : Nat → ProbeOutcome) (g : Bool)
    (file : Status) (id : String) (pin : Nat) (fuel : Nat) (r : RunResult)
    (hpin : ctx.pins id = some pin)
    (hping : ∀ j, ping_host (ping j) = Except.ok true)
    (hfuel : ctx.max_release_time < fuel * ctx.release_time)
    (hrun : release_thread ctx ping g file id fuel = some r) :
    r.outcome = some .TimedOut ∧
      ctx.max_release_time < r.elapsed ∧
      r.elapsed ≤ ctx.max_release_time + ctx.release_time ∧
      (∀ ping2 fuel2 r2, release_thread ctx ping2 g file id fuel2 = some r2 →
        r2.outcome = some .TimedOut → ctx.max_release_time < r2.elapsed) := by
  obtain ⟨e, evs, hm, hb1, hb2⟩ :=
    monitor_reachable_forever id ping ctx.release_time ctx.max_release_time hping
      fuel 0 0 (Nat.zero_le _) (by simpa using hfuel)
  unfold release_thread at hrun
  rw [hpin, hm] at hrun
  simp only [Option.some.injEq] at hrun
  subst hrun
  exact ⟨rfl, hb1, hb2, fun ping2 fuel2 r2 h1 h2 =>
    release_thread_timedOut_deadline ctx ping2 g file id fuel2 r2 h1 h2⟩

/-- Witness for monitoring_times_out_after_deadline: with release_time 2 and
max_release_time 3 the always-reachable run times out at elapsed time 4. -/
theorem monitoring_times_out_after_deadline_witness :
    rTO.outcome = some Outcome.TimedOut ∧
      ctx0.max_release_time < rTO.elapsed ∧
      rTO.elapsed ≤ ctx0.max_release_time + ctx0.release_time ∧
      ctx0.max_release_time < rTO.elapsed := by
  have h := monitoring_times_out_after_deadline ctx0 (fun _ => ProbeOutcome.completed 0)
    true freshStatus "1" 7 3 rTO rfl (fun _ => rfl) (by decide) rfl
  exact ⟨h.1, h.2.1, h.2.2.1, h.2.2.2 (fun _ => ProbeOutcome.completed 0) 3 rTO rfl h.1⟩

/-- C6: a release request for a device id that is not in the pin table is
rejected synchronously: release_popup returns False without spawning a task,
the route answers with success := false, and no event — in particular no GPIO
write — is produced. -/
theorem unknown_device_rejected (ctx : Ctx) (ping : Nat → ProbeOutcome) (g : Bool)
    (file : Status) (id ip : String) (fuel : Nat)
    (hid : ctx.pins id = none) :
    release_popup ctx id ip = (false, none) ∧
    release_callback ctx ping g file id ip fuel = (false, none, []) := by
  have h1 : release_popup ctx id ip = (false, none) := by
    unfold release_popup
    rw [hid]
    rfl
  refine ⟨h1, ?_⟩
  unfold release_callback
  rw [h1]

/-- Witness for unknown_device_rejected: the id "9" is not registered in
ctx0. -/
theorem unknown_device_rejected_witness :
    release_popup ctx0 "9" "10.0.0.9" = (false, none) ∧
    release_callback ctx0 (fun _ => ProbeOutcome.completed 1) true freshStatus "9"
      "10.0.0.9" 1 = (false, none, []) :=
  unknown_device_rejected ctx0 (fun _ => ProbeOutcome.completed 1) true freshStatus
    "9" "10.0.0.9" 1 rfl

/-- C3 counterexample: buoy "2" is recorded as released in fileRel, yet the
release request is accepted, a task is spawned, and the task drives pin 5
HIGH again — the persisted released flag is never consulted. -/
theorem released_device_rearmed_counterexample :
    fileRel.releasedBuoys "2" = true ∧
    (release_callback ctx0 (fun _ => ProbeOutcome.completed 1) true fileRel
      "2" "10.9.9.9" 2).1 = true ∧
    Ev.gpio 5 true ∈ (release_callback ctx0 (fun _ => ProbeOutcome.completed 1) true
      fileRel "2" "10.9.9.9" 2).2.2 := by
  decide

/-- C3 amended: a release request for any registered device is accepted and
spawns a task whose trace energizes the assigned pin, whatever the content of
the status file — the persisted released flag plays no part in the
decision. -/
theorem release_request_ignores_released_flag (ctx : Ctx) (ping : Nat → ProbeOutcome)
    (g : Bool) (file : Status) (id ip : String) (pin : Nat) (fuel : Nat)
    (r : RunResult)
    (hpin : ctx.pins id = some pin)
    (hrun : release_thread ctx ping g file id fuel = some r) :
    release_popup ctx id ip = (true, some { popup_id := id, client_ip := ip }) ∧
    Ev.gpio pin true ∈ r.events := by
  constructor
  · unfold release_popup
    rw [hpin]
    rfl
  · unfold release_thread at hrun
    rw [hpin] at hrun
    cases hm : monitor id ping ctx.release_time ctx.max_release_time fuel 0 0 with
    | none => rw [hm] at hrun; simp at hrun
    | some t =>
      obtain ⟨res, evs⟩ := t
      rw [hm] at hrun
      cases res with
      | raised err =>
        simp only [Option.some.injEq] at hrun
        subst hrun
        simp
      | done o e =>
        cases o with
        | TimedOut =>
          simp only [Option.some.injEq] at hrun
          subst hrun
          simp
        | Released =>
          cases g with
          | true =>
            simp only [Option.some.injEq] at hrun
            subst hrun
            simp
          | false =>
            simp only [Option.some.injEq] at hrun
            subst hrun
            simp

/-- Witness for release_request_ignores_released_flag: buoy "2" is already
recorded as released in fileRel and is re-armed all the same. -/
theorem release_request_ignores_released_flag_witness :
    fileRel.releasedBuoys "2" = true ∧
    (release_popup ctx0 "2" "10.0.0.9" =
      (true, some { popup_id := "2", client_ip := "10.0.0.9" }) ∧
     Ev.gpio 5 true ∈ rRel2.events) :=
  ⟨by decide,
   release_request_ignores_released_flag ctx0 (fun _ => ProbeOutcome.completed 1)
     true fileRel "2" "10.0.0.9" 5 1 rRel2 rfl rfl⟩

/-- C1 counterexample: with the default offset of 60 seconds, a query time of
99 that is strictly before the scheduled time 100 still yields release flag 1
in the code, while the specified comparison now at or after scheduled_time
yields 0. -/
theorem release_flag_early_counterexample :
    99 < 100 ∧ startup_release_flag 100 99 60 = 1 ∧ release_flag_spec 100 99 = 0 := by
  decide

/-- C1 amended: the code marks a device due iff scheduled_time is strictly
before now plus offset_seconds — so the boundary now = scheduled_time does
authorize whenever the offset is positive, but instants up to offset_seconds
before the scheduled time authorize as well; and the permission route returns
the stored permission entry verbatim instead of recomputing it at query
time. -/
theorem release_flag_amended (scheduled now offset : Nat) (st : Status)
    (id : String) (e : PermEntry)
    (hst : st.permission id = some e) :
    (startup_release_flag scheduled now offset = 1 ↔ scheduled < now + offset) ∧
    (0 < offset → startup_release_flag scheduled scheduled offset = 1) ∧
    get_permission_status (some st) id = .ok e := by
  refine ⟨?_, ?_, ?_⟩
  · unfold startup_release_flag
    split <;> simp_all
  · intro h
    unfold startup_release_flag
    rw [if_pos (by omega)]
  · simp [get_permission_status, hst]

/-- Witness for release_flag_amended at the stored entry of buoy "1" in sW
and at the concrete times of the counterexample. -/
theorem release_flag_amended_witness :
    (startup_release_flag 100 99 60 = 1 ↔ 100 < 99 + 60) ∧
    (0 < 60 → startup_release_flag 100 100 60 = 1) ∧
    get_permission_status (some sW) "1" = .ok e0W :=
  release_flag_amended 100 99 60 sW "1" e0W rfl

/-- C7 counterexample: an exception other than TimeoutExpired raised by the
probe invocation — here the ValueError a host string with an embedded NUL
byte produces — is not caught by ping_host and propagates instead of turning
into a False return. -/
theorem ping_host_raises_counterexample :
    ping_host (.raised .valueError) = .error .valueError ∧
    ping_host (.raised .valueError) ≠ .ok false :=
  ⟨rfl, fun h => Except.noConfusion h⟩

/-- C7 amended: ping_host returns true exactly when the ping subprocess
completes within the timeout with return code 0, returns false on a nonzero
return code or on subprocess.TimeoutExpired, and lets every other exception of
the invocation propagate. -/
theorem ping_host_amended (r : ProbeOutcome) :
    (ping_host r = .ok true ↔ r = .completed 0) ∧
    (ping_host r = .ok false ↔ r = .timedOut ∨ ∃ rc, r = .completed rc ∧ rc ≠ 0) ∧
    (∀ e, ping_host r = .error e ↔ r = .raised e) := by
  cases r with
  | completed rc =>
    by_cases h : rc = 0 <;> simp [ping_host, h]
  | timedOut => simp [ping_host]
  | raised e => simp [ping_host]

/-- Witness for ping_host_amended at the timeout outcome. -/
theorem ping_host_amended_witness :
    (ping_host .timedOut = .ok true ↔ ProbeOutcome.timedOut = .completed 0) ∧
    (ping_host .timedOut = .ok false ↔ ProbeOutcome.timedOut = .timedOut ∨
      ∃ rc, ProbeOutcome.timedOut = .completed rc ∧ rc ≠ 0) ∧
    (∀ e, ping_host .timedOut = .error e ↔ ProbeOutcome.timedOut = .raised e) :=
  ping_host_amended .timedOut

/-- C8 counterexample: a complete run of a release task — one transition into
Actuating when pin 7 goes HIGH and one into TimedOut — produces process-log
lines and GPIO writes only: the status file is never written during the run,
so no status record with code Actuating (or any other code) exists. -/
theorem no_status_record_counterexample :
    (release_callback ctx0 (fun _ => ProbeOutcome.completed 0) true freshStatus
      "1" "10.0.0.9" 3).2.2 =
      [Ev.logActivating "1", Ev.gpio 7 true, Ev.logStillConnected "1",
       Ev.logStillConnected "1", Ev.gpio 7 false, Ev.logTimeout "1"] ∧
    Ev.writeStatus ∉
      (release_callback ctx0 (fun _ => ProbeOutcome.completed 0) true freshStatus
        "1" "10.0.0.9" 3).2.2 := by
  decide

/-- C8 amended: a release task logs an activation line when the output goes
HIGH (and further log lines on the other transitions), but it writes the
durable status file exactly once, and only on the Released path that runs to
completion — never on entering Actuating and never on the TimedOut path. -/
theorem status_write_only_on_success (ctx : Ctx) (ping : Nat → ProbeOutcome) (g : Bool)
    (file : Status) (id : String) (pin : Nat) (fuel : Nat) (r : RunResult)
    (hpin : ctx.pins id = some pin)
    (hrun : release_thread ctx ping g file id fuel = some r) :
    Ev.logActivating id ∈ r.events ∧
    (Ev.writeStatus ∈ r.events ↔ r.outcome = some .Released ∧ r.exc = none) := by
  unfold release_thread at hrun
  rw [hpin] at hrun
  cases hm : monitor id ping ctx.release_time ctx.max_release_time fuel 0 0 with
  | none => rw [hm] at hrun; simp at hrun
  | some t =>
    obtain ⟨res, evs⟩ := t
    rw [hm] at hrun
    have hevs := monitor_events id ping ctx.release_time ctx.max_release_time
      fuel 0 0 res evs hm
    have hws : Ev.writeStatus ∉ evs := by
      intro hmem
      exact absurd (hevs _ hmem) (by simp)
    cases res with
    | raised err =>
      simp only [Option.some.injEq] at hrun
      subst hrun
      refine ⟨by simp, ?_⟩
      simp [hws]
    | done o e =>
      cases o with
      | TimedOut =>
        simp only [Option.some.injEq] at hrun
        subst hrun
        refine ⟨by simp, ?_⟩
        simp [hws]
      | Released =>
        cases g with
        | true =>
          simp only [Option.some.injEq] at hrun
          subst hrun
          refine ⟨by simp, ?_⟩
          simp
        | false =>
          simp only [Option.some.injEq] at hrun
          subst hrun
          refine ⟨by simp, ?_⟩
          simp [hws]

/-- Witness for status_write_only_on_success on the fresh-start Released run:
the activation line is logged and no status write happens (the success path
dies with NameError). -/
theorem status_write_only_on_success_witness :
    Ev.logActivating "1" ∈ rNE.events ∧
    (Ev.writeStatus ∈ rNE.events ↔ rNE.outcome = some Outcome.Released ∧ rNE.exc = none) :=
  status_write_only_on_success ctx0 (fun _ => ProbeOutcome.completed 1) false
    freshStatus "1" 7 1 rNE rfl rfl

/-- C10: when the status file did not exist at startup, the startup branch
leaves the popup_status global unbound, and every release task that reaches
the Released outcome dies with NameError after setting the line LOW but
before rewriting the status file, so the persisted released flag of the
device stays false. -/
theorem fresh_start_release_name_error (ex : Status) (mode : String → Option String)
    (sampling : Nat) (rel : List (String × Nat)) (ctx : Ctx) (ping : Nat → ProbeOutcome)
    (id : String) (pin : Nat) (f : Status) (gb : Bool) (fuel : Nat) (r : RunResult)
    (hstart : startup_status false ex mode sampling rel = .ok (f, gb))
    (hpin : ctx.pins id = some pin)
    (hrun : release_thread ctx ping gb f id fuel = some r)
    (hout : r.outcome = some .Released) :
    r.exc = some .nameError ∧ Ev.gpio pin false ∈ r.events ∧
      Ev.writeStatus ∉ r.events ∧ r.finalFile.releasedBuoys id = false := by
  rw [show startup_status false ex mode sampling rel = .ok (freshStatus, false) from rfl]
    at hstart
  simp only [Except.ok.injEq, Prod.mk.injEq] at hstart
  obtain ⟨rfl, rfl⟩ := hstart
  unfold release_thread at hrun
  rw [hpin] at hrun
  cases hm : monitor id ping ctx.release_time ctx.max_release_time fuel 0 0 with
  | none => rw [hm] at hrun; simp at hrun
  | some t =>
    obtain ⟨res, evs⟩ := t
    rw [hm] at hrun
    have hevs := monitor_events id ping ctx.release_time ctx.max_release_time
      fuel 0 0 res evs hm
    have hws : Ev.writeStatus ∉ evs := by
      intro hmem
      exact absurd (hevs _ hmem) (by simp)
    cases res with
    | raised err =>
      simp only [Option.some.injEq] at hrun
      subst hrun
      simp at hout
    | done o e =>
      cases o with
      | TimedOut =>
        simp only [Option.some.injEq] at hrun
        subst hrun
        simp at hout
      | Released =>
        simp only [Option.some.injEq] at hrun
        subst hrun
        refine ⟨rfl, by simp, ?_, rfl⟩
        simp [hws]

/-- Witness for fresh_start_release_name_error: buoy "1" released against the
freshly generated status file. -/
theorem fresh_start_release_name_error_witness :
    rNE.exc = some PyErr.nameError ∧ Ev.gpio 7 false ∈ rNE.events ∧
      Ev.writeStatus ∉ rNE.events ∧ rNE.finalFile.releasedBuoys "1" = false :=
  fresh_start_release_name_error freshStatus (fun _ => none) 0 [] ctx0
    (fun _ => ProbeOutcome.completed 1) "1" 7 freshStatus false 1 rNE rfl rfl rfl rfl

/-- C4 at the failing input: with a freshly generated status file (controller
started with no status file on disk), the release run for buoy "1" that
reaches the Released outcome ends with the NameError and the persisted
released flag still false — the flag is not set to true as the claim
requires. -/
theorem released_outcome_not_persisted_on_fresh_start :
    (release_thread ctx0 (fun _ => ProbeOutcome.completed 1) false freshStatus "1" 3).map
      (fun r => (r.outcome, r.exc, r.finalFile.releasedBuoys "1")) =
      some (some Outcome.Released, some PyErr.nameError, false) := by
  rfl

/-- Exact effect of one reconciliation step on the releaseFlag stored for a
device: the flag becomes 1 when the step processes exactly this device with
computed value 1 and stored flag 0; in every other case it is unchanged (the
step may still rewrite releaseMode and sleeptime_h). -/
lemma process_release_step_perm (mode : String → Option String) (sampling : Nat)
    (s : Status) (p : String × Nat) (s1 : Status) (id : String) (e : PermEntry)
    (hok : process_release_step mode sampling s p = .ok s1)
    (he : s.permission id = some e) :
    ∃ e1, s1.permission id = some e1 ∧
      e1.releaseFlag =
        (if p.1 = id ∧ e.releaseFlag = 0 ∧ p.2 = 1 then 1 else e.releaseFlag) := by
  unfold process_release_step at hok
  split at hok
  · simp at hok
  · rename_i entry hp
    split at hok
    · simp at hok
    · rename_i m hmode
      by_cases hid : p.1 = id
      · subst hid
        have hee : entry = e := by
          rw [he] at hp
          exact (Option.some.inj hp).symm
        subst hee
        split at hok
        · rename_i hcond
          injection hok with h
          subst h
          refine ⟨{ entry with releaseMode := m, sleeptime_h := toString sampling },
            by simp [updatePerm], ?_⟩
          simp [hcond.1]
        · split at hok
          · rename_i hcond1 hcond2
            injection hok with h
            subst h
            refine ⟨{ releaseFlag := 1, releaseMode := m, sleeptime_h := toString sampling },
              by simp [updatePerm], ?_⟩
            simp [hcond2.1, hcond2.2]
          · rename_i hcond1 hcond2
            injection hok with h
            subst h
            refine ⟨{ entry with releaseMode := m, sleeptime_h := toString sampling },
              by simp [updatePerm], ?_⟩
            have hc : ¬(p.1 = p.1 ∧ entry.releaseFlag = 0 ∧ p.2 = 1) := by
              rintro ⟨-, h0, h1⟩
              exact hcond2 ⟨h0, h1⟩
            rw [if_neg hc]
      · have hid2 : id ≠ p.1 := fun h => hid h.symm
        refine ⟨e, ?_, by simp [hid]⟩
        split at hok
        · injection hok with h
          subst h
          simp [updatePerm, hid2, he]
        · split at hok
          · injection hok with h
            subst h
            simp [updatePerm, hid2, he]
          · injection hok with h
            subst h
            simp [updatePerm, hid2, he]

/-- Effect of the whole reconciliation pass on the releaseFlag stored for a
device: the final flag is either the initial one or 1, and it is 1 whenever
the pass visits the pair (id, 1) with an initial flag of 0 or 1. -/
lemma process_release_perm (mode : String → Option String) (sampling : Nat)
    (id : String) :
    ∀ (l : List (String × Nat)) (s s1 : Status) (e : PermEntry),
      process_release mode sampling s l = .ok s1 →
      s.permission id = some e →
      ∃ e1, s1.permission id = some e1 ∧
        (e1.releaseFlag = e.releaseFlag ∨ e1.releaseFlag = 1) ∧
        ((id, 1) ∈ l → e.releaseFlag = 0 ∨ e.releaseFlag = 1 → e1.releaseFlag = 1) := by
  intro l
  induction l with
  | nil =>
    intro s s1 e hok he
    unfold process_release at hok
    injection hok with h
    subst h
    exact ⟨e, he, Or.inl rfl, by simp⟩
  | cons p rest ih =>
    intro s s1 e hok he
    unfold process_release at hok
    cases hstep : process_release_step mode sampling s p with
    | error err => rw [hstep] at hok; simp at hok
    | ok s2 =>
      rw [hstep] at hok
      obtain ⟨e2, hperm2, hflag2⟩ :=
        process_release_step_perm mode sampling s p s2 id e hstep he
      obtain ⟨e1, hperm1, hdisj, hprom⟩ := ih s2 s1 e2 hok hperm2
      refine ⟨e1, hperm1, ?_, ?_⟩
      · by_cases hc : p.1 = id ∧ e.releaseFlag = 0 ∧ p.2 = 1
        · rw [if_pos hc] at hflag2
          rcases hdisj with h | h
          · exact Or.inr (h.trans hflag2)
          · exact Or.inr h
        · rw [if_neg hc] at hflag2
          rcases hdisj with h | h
          · exact Or.inl (h.trans hflag2)
          · exact Or.inr h
      · intro hmem hf
        rcases List.mem_cons.mp hmem with heq | hmem2
        · have hp1 : p.1 = id := (congrArg Prod.fst heq).symm
          have hp2 : p.2 = 1 := (congrArg Prod.snd heq).symm
          rcases hf with h0 | h1
          · rw [if_pos ⟨hp1, h0, hp2⟩] at hflag2
            rcases hdisj with h | h
            · exact h.trans hflag2
            · exact h
          · have hc : ¬(p.1 = id ∧ e.releaseFlag = 0 ∧ p.2 = 1) := by
              rintro ⟨-, h0, -⟩
              rw [h1] at h0
              exact absurd h0 (by decide)
            rw [if_neg hc] at hflag2
            rcases hdisj with h | h
            · exact h.trans (hflag2.trans h1)
            · exact h
        · apply hprom hmem2
          by_cases hc : p.1 = id ∧ e.releaseFlag = 0 ∧ p.2 = 1
          · rw [if_pos hc] at hflag2
            exact Or.inr hflag2
          · rw [if_neg hc] at hflag2
            rw [hflag2]
            exact hf

/-- C9: across a startup reconciliation pass the stored releaseFlag is
monotone: a stored flag of 1 survives the pass whatever the newly computed
due values are, and a stored flag of 0 is promoted to 1 when the pass visits
the device with computed due value 1. -/
theorem releaseFlag_monotone (mode : String → Option String) (sampling : Nat)
    (l : List (String × Nat)) (s s1 : Status) (id : String) (e : PermEntry)
    (hok : process_release mode sampling s l = .ok s1)
    (he : s.permission id = some e) :
    (e.releaseFlag = 1 → flagOf s1 id = some 1) ∧
    ((id, 1) ∈ l → e.releaseFlag = 0 ∨ e.releaseFlag = 1 → flagOf s1 id = some 1) := by
  obtain ⟨e1, hperm, hdisj, hprom⟩ :=
    process_release_perm mode sampling id l s s1 e hok he
  constructor
  · intro h1
    rcases hdisj with h | h
    · simp [flagOf, hperm, h, h1]
    · simp [flagOf, hperm, h]
  · intro hmem hf
    simp [flagOf, hperm, hprom hmem hf]

/-- Witness for releaseFlag_monotone: the pass over sW with the single due
pair ("1", 1) promotes the stored flag of buoy "1" from 0 to 1. -/
theorem releaseFlag_monotone_witness :
    flagOf s1W "1" = some 1 :=
  (releaseFlag_monotone modeW 24 [("1", 1)] sW s1W "1" e0W rfl rfl).2
    (by simp) (Or.inl rfl)

end PopupServer
